import Mathlib

/-!
Verification of the payment-reconciliation and campaign-lifecycle core of the
lendahand donation platform (Django backend, `backend/donations/`).

The relevant source lives in `donations/views.py`, `donations/models.py` and
`donations/moderation_views.py`.  Database tables are modelled as Lean lists of
rows, `DecimalField` money values as exact rationals (every stored decimal has
two fractional digits, so this embedding is exact), and each view function as a
pure function from its inputs and the database state to a response value and
the resulting database state.
-/

namespace Lendahand

/-- Campaign lifecycle states, `Campaign.STATUS_CHOICES` in `donations/models.py`. -/
inductive Status where
  | draft
  | pending
  | approved
  | rejected
  | suspended
  | cancelled
deriving DecidableEq, Repr

/-- Donation row (`Donation` model in `donations/models.py`): the payment reference is
the `stripe_payment_intent_id` column, which carries a database unique constraint.
The `amount` column is a `DecimalField(max_digits=10, decimal_places=2)`, modelled as
an exact rational. -/
structure Donation where
  campaign : Nat
  amount : ℚ
  is_anonymous : Bool
  stripe_payment_intent_id : String
deriving DecidableEq, Repr

/-- Campaign row (`Campaign` model in `donations/models.py`); timestamps and media are
omitted because no claim mentions them. -/
structure Campaign where
  id : Nat
  title : String
  short_description : String
  description : String
  target_amount : ℚ
  current_amount : ℚ
  status : Status
  created_by : Nat
  moderation_notes : String
  stripe_ready : Bool
deriving DecidableEq, Repr

/-- Requesting user, with the two flags the moderation code checks. -/
structure User where
  id : Nat
  is_moderator : Bool
  is_staff : Bool
deriving DecidableEq, Repr

/-- ModerationHistory row (`ModerationHistory` model in `donations/models.py`); the
action is stored as a plain string (`approve` / `reject` / `resume`). -/
structure ModerationHistory where
  campaign : Nat
  moderator : Nat
  action : String
  notes : String
deriving DecidableEq, Repr

/-- First donation row carrying a given payment reference: the lookup performed by
`Donation.objects.get_or_create(stripe_payment_intent_id=...)`. -/
def findRef : List Donation → String → Option Donation
  | [], _ => none
  | d :: L, r => if d.stripe_payment_intent_id = r then some d else findRef L r

/-- Number of donation rows carrying a given payment reference.  The database unique
constraint on `stripe_payment_intent_id` keeps this at most one. -/
def refCount : List Donation → String → Nat
  | [], _ => 0
  | d :: L, r => (if d.stripe_payment_intent_id = r then 1 else 0) + refCount L r

/-- Return value of `create_or_update_donation`, together with the donation table it
leaves behind: the Python function returns `(donation, created, updated)` and mutates
the table through the ORM. -/
structure DonationWriteResult where
  donation : Donation
  created : Bool
  updated : Bool
  ledger : List Donation
deriving DecidableEq, Repr

/-- Shallow embedding of `create_or_update_donation` (`donations/views.py`, lines
53-89): an atomic `get_or_create` keyed on the payment reference with defaults
`{campaign, amount, is_anonymous=True}`; when the row already existed and its amount
differs from the supplied one, the amount is overwritten and saved.  `amount` is the
exact decimal value after the function's `Decimal(str(amount))` normalisation; the
`log_prefix` argument only affects logging and is dropped. -/
def create_or_update_donation (campaign : Campaign) (payment_intent_id : String)
    (amount : ℚ) (L : List Donation) : DonationWriteResult :=
  match findRef L payment_intent_id with
  | none =>
    let d : Donation :=
      { campaign := campaign.id
        amount := amount
        is_anonymous := true
        stripe_payment_intent_id := payment_intent_id }
    { donation := d, created := true, updated := false, ledger := L ++ [d] }
  | some d =>
    if d.amount ≠ amount then
      let d' : Donation := { d with amount := amount }
      { donation := d', created := false, updated := true
        ledger := L.map (fun x => if x.stripe_payment_intent_id = payment_intent_id then d' else x) }
    else
      { donation := d, created := false, updated := false, ledger := L }

/-- Shallow embedding of `recalculate_campaign_amount` (`donations/views.py`, lines
92-104): sum `Donation.amount` over the campaign's donations — Python's `sum`, a left
fold starting from `0` — and overwrite `current_amount` only when it differs.  Returns
the campaign row and whether a write happened. -/
def recalculate_campaign_amount (campaign : Campaign) (L : List Donation) :
    Campaign × Bool :=
  let total_donated :=
    (L.filter (fun d => d.campaign == campaign.id)).foldl (fun acc d => acc + d.amount) 0
  if campaign.current_amount ≠ total_donated then
    ({ campaign with current_amount := total_donated }, true)
  else
    (campaign, false)

/-- Checkout-session object as the reconciliation code reads it: the optional
`payment_intent`, `payment_intent_id` and `id` keys.  Every call site passes a
dict-like session (the webhook passes a JSON dict, the confirmation and sweep paths
pass stripe objects, which subclass `dict`), so the dict branch of the extraction
function is the one modelled.  `none` is an absent key; an empty string is a present
but falsy value. -/
structure Session where
  payment_intent : Option String
  payment_intent_id : Option String
  id : Option String
deriving DecidableEq, Repr

/-- Python truthiness of an optional string: absent (`None`) and the empty string are
falsy, every other string is truthy. -/
def truthyStr : Option String → Bool
  | none => false
  | some s => s ≠ ""

/-- Shallow embedding of `extract_payment_intent_from_session` (`donations/views.py`,
lines 39-50), dict branch: prefer a truthy `payment_intent` key, then a truthy
`payment_intent_id` key; otherwise synthesize `session_<sessionId>` where the session
id is the explicit `session_id` argument when truthy, else the session's `id` key,
else the literal `unknown`. -/
def extract_payment_intent_from_session (session : Session) (session_id : Option String) :
    String :=
  if truthyStr session.payment_intent then session.payment_intent.getD ""
  else if truthyStr session.payment_intent_id then session.payment_intent_id.getD ""
  else
    let sid :=
      if truthyStr session_id then session_id.getD ""
      else
        match session.id with
        | some s => s
        | none => "unknown"
    "session_" ++ sid

/-- Response of `CampaignViewSet.resume`: the three early returns and the success
case. -/
inductive ResumeOutcome where
  | permissionDenied
  | notSuspendedOrCancelled
  | notReady
  | resumed
deriving DecidableEq, Repr

/-- Shallow embedding of `CampaignViewSet.resume` (`donations/views.py`, lines
748-789).  The guard clauses of the source (moderator check, status check,
`stripe_ready` check) appear here as nested conditionals in the same order; the
success branch sets the status to `approved`, overwrites `moderation_notes` only when
the request supplied them, and appends a `resume` row to `ModerationHistory`. -/
def resume (user : User) (campaign : Campaign) (history : List ModerationHistory)
    (moderation_notes : Option String) :
    ResumeOutcome × Campaign × List ModerationHistory :=
  if user.is_moderator || user.is_staff then
    if campaign.status = .suspended ∨ campaign.status = .cancelled then
      if campaign.stripe_ready then
        let c' :=
          match moderation_notes with
          | some n => { campaign with status := .approved, moderation_notes := n }
          | none => { campaign with status := .approved }
        let entry : ModerationHistory :=
          { campaign := campaign.id
            moderator := user.id
            action := "resume"
            notes := moderation_notes.getD campaign.moderation_notes }
        (.resumed, c', history ++ [entry])
      else (.notReady, campaign, history)
    else (.notSuspendedOrCancelled, campaign, history)
  else (.permissionDenied, campaign, history)

/-- Writable fields of `CampaignCreateSerializer` (`donations/serializers.py`): title,
short_description, description, target_amount and status.  An absent key leaves the
corresponding instance field unchanged (the `setattr` loop of the serializer's
`update`); `media_files` only creates media rows and is omitted. -/
structure CampaignPatch where
  title : Option String
  short_description : Option String
  description : Option String
  target_amount : Option ℚ
  status : Option Status
deriving DecidableEq, Repr

/-- Apply a validated patch to a campaign instance, field by field. -/
def applyPatch (c : Campaign) (p : CampaignPatch) : Campaign :=
  { c with
    title := p.title.getD c.title
    short_description := p.short_description.getD c.short_description
    description := p.description.getD c.description
    target_amount := p.target_amount.getD c.target_amount
    status := p.status.getD c.status }

/-- Response of `CampaignViewSet.perform_update`: the two raises and the save. -/
inductive UpdateOutcome where
  | permissionDenied
  | notReady
  | saved
deriving DecidableEq, Repr

/-- Shallow embedding of `CampaignViewSet.perform_update` (`donations/views.py`, lines
712-728).  After the ownership check, `new_status` is the patch's status or the
instance's; moving to `pending`/`approved` without `stripe_ready` raises a validation
error.  Editing an `approved` or `rejected` campaign saves with the explicit keyword
overrides `status="pending"`, `moderation_notes=""` (keyword arguments to
`serializer.save` win over the validated data).  The view never touches
`ModerationHistory`, so the history table is returned unchanged on every path. -/
def perform_update (user : User) (inst : Campaign) (patch : CampaignPatch)
    (history : List ModerationHistory) :
    UpdateOutcome × Campaign × List ModerationHistory :=
  if inst.created_by ≠ user.id ∧ ¬(user.is_moderator = true ∨ user.is_staff = true) then
    (.permissionDenied, inst, history)
  else
    -- `new_status = serializer.validated_data.get("status", instance.status)`
    if (patch.status.getD inst.status = .pending ∨ patch.status.getD inst.status = .approved)
        ∧ inst.stripe_ready = false then
      (.notReady, inst, history)
    else if inst.status = .approved ∨ inst.status = .rejected then
      (.saved,
        { applyPatch inst patch with status := .pending, moderation_notes := "" },
        history)
    else
      (.saved, applyPatch inst patch, history)

/-- Response of the moderation-dashboard view `moderate_campaign`. -/
inductive ModerateOutcome where
  | notPending
  | approvedOk
  | rejectedOk
  | invalidAction
deriving DecidableEq, Repr

/-- Shallow embedding of `moderate_campaign` (`donations/moderation_views.py`, lines
57-95) for a POST request whose caller already passed the `moderation_login_required`
decorator (authenticated moderator or staff).  Note that, unlike
`CampaignViewSet.approve`, this view reads neither `stripe_ready` nor the owner's
payment account: the function is literally independent of `campaign.stripe_ready`. -/
def moderate_campaign (user : User) (campaign : Campaign)
    (history : List ModerationHistory) (action notes : String) :
    ModerateOutcome × Campaign × List ModerationHistory :=
  if campaign.status ≠ .pending then (.notPending, campaign, history)
  else if action = "approve" then
    (.approvedOk,
      { campaign with status := .approved, moderation_notes := notes },
      history ++ [{ campaign := campaign.id, moderator := user.id, action := "approve", notes := notes }])
  else if action = "reject" then
    (.rejectedOk,
      { campaign with status := .rejected, moderation_notes := notes },
      history ++ [{ campaign := campaign.id, moderator := user.id, action := "reject", notes := notes }])
  else (.invalidAction, campaign, history)

/-- Outcome of Python's `int(x)` applied to `metadata.get("campaign_id")`:
`int(None)` raises `TypeError` (which only the webhook's catch-all
`except Exception` handler sees), a non-numeric string raises `ValueError`
(which the webhook answers with a 400), otherwise the parsed integer. -/
inductive PyIntResult where
  | typeError
  | valueError
  | ok (n : Int)
deriving DecidableEq, Repr

/-- Python `int` on a string: an optional sign followed by at least one digit
(surrounding whitespace and underscore separators, which no caller produces here, are
not modelled). -/
def pyParseInt (s : String) : Option Int :=
  if s.startsWith "-" then (s.drop 1).toNat?.map (fun n => -(n : Int))
  else if s.startsWith "+" then (s.drop 1).toNat?.map (fun n => (n : Int))
  else s.toNat?.map (fun n => (n : Int))

/-- Python `int(metadata.get("campaign_id"))`. -/
def pyInt : Option String → PyIntResult
  | none => .typeError
  | some s =>
    match pyParseInt s with
    | none => .valueError
    | some n => .ok n

/-- Session object of a `checkout.session.completed` webhook event:
`metadata.get("campaign_id")` (Stripe metadata values are strings), the
`amount_total` key in integer minor units (`none` means the key is absent, in which
case `session.get("amount_total", 0)` yields 0), and the keys read by
`extract_payment_intent_from_session`. -/
structure WebhookSession where
  metadata_campaign_id : Option String
  amount_total : Option Int
  session : Session
deriving DecidableEq, Repr

/-- Database state touched by the reconciliation engine. -/
structure DbState where
  campaigns : List Campaign
  donations : List Donation
deriving DecidableEq, Repr

/-- Persist a campaign row (`campaign.save()`): replace the row with the same id. -/
def saveCampaign (cs : List Campaign) (c : Campaign) : List Campaign :=
  cs.map (fun x => if x.id == c.id then c else x)

/-- Shallow embedding of the `checkout.session.completed` branch of `stripe_webhook`
(`donations/views.py`, lines 1381-1429), returning the HTTP status code of the
response and the database state it leaves behind.  `int(metadata.get("campaign_id"))`
raises `TypeError` when the key is absent, and the handler's `except` clauses catch
`KeyError`, `ValueError` and `Campaign.DoesNotExist` but not `TypeError`, so that case
falls to the catch-all `except Exception` and returns HTTP 500.  The Python float
division `session.get("amount_total", 0) / 100` is modelled as exact rational
division; the two agree on every branch decision taken here (the sign test
`amount <= 0`). -/
def stripe_webhook_checkout_completed (ws : WebhookSession) (st : DbState) :
    Nat × DbState :=
  match pyInt ws.metadata_campaign_id with
  | .typeError => (500, st)
  | .valueError => (400, st)
  | .ok cid =>
    if cid = 0 then (400, st)
    else
      let amount : ℚ := ((ws.amount_total.getD 0 : Int) : ℚ) / 100
      if amount ≤ 0 then (400, st)
      else
        let payment_intent := extract_payment_intent_from_session ws.session none
        match st.campaigns.find? (fun c => ((c.id : Int) == cid)) with
        | none => (404, st)
        | some campaign =>
          let R := create_or_update_donation campaign payment_intent amount st.donations
          if R.created then
            let c' := { campaign with current_amount := campaign.current_amount + amount }
            (200, { campaigns := saveCampaign st.campaigns c', donations := R.ledger })
          else
            let c' := (recalculate_campaign_amount campaign R.ledger).1
            (200, { campaigns := saveCampaign st.campaigns c', donations := R.ledger })

/-- Sample campaign used by the concrete witnesses below. -/
def sampleCampaign : Campaign :=
  { id := 7
    title := "Clean Water"
    short_description := "short"
    description := "long"
    target_amount := 1000
    current_amount := 0
    status := .approved
    created_by := 1
    moderation_notes := ""
    stripe_ready := true }

/-- Moderator account used by the concrete witnesses. -/
def sampleModerator : User := { id := 2, is_moderator := true, is_staff := false }

/-- Campaign owner account used by the concrete witnesses. -/
def sampleOwner : User := { id := 1, is_moderator := false, is_staff := false }

/-- Pending campaign whose owner's payment account is not ready. -/
def pendingNotReady : Campaign :=
  { sampleCampaign with status := .pending, stripe_ready := false }

/-- Rejected campaign whose owner's payment account is not ready. -/
def rejectedNotReady : Campaign :=
  { sampleCampaign with status := .rejected, stripe_ready := false }

/-- Suspended campaign whose owner's payment account is not ready. -/
def suspendedNotReady : Campaign :=
  { sampleCampaign with status := .suspended, stripe_ready := false }

/-- Content-only edit: a patch that changes the long description and nothing else. -/
def sampleEdit : CampaignPatch :=
  { title := none
    short_description := none
    description := some "updated text"
    target_amount := none
    status := none }

/-- Webhook `checkout.session.completed` event whose session metadata has no
`campaign_id` key, with a perfectly valid amount and payment reference. -/
def eventMissingCampaignId : WebhookSession :=
  { metadata_campaign_id := none
    amount_total := some 5000
    session := { payment_intent := some "pi_1", payment_intent_id := none, id := some "cs_1" } }

/-- Database that holds the sample campaign and no donations. -/
def sampleDb : DbState := { campaigns := [sampleCampaign], donations := [] }

/-- Donation row used by the concrete witnesses: campaign 3, reference `pi_9`. -/
def sampleDonation : Donation :=
  { campaign := 3, amount := 50, is_anonymous := true, stripe_payment_intent_id := "pi_9" }

/-- Donation table used by the recalculation witness: two donations for campaign 7 and
one for campaign 8. -/
def sampleLedger : List Donation :=
  [ { campaign := 7, amount := 30, is_anonymous := true, stripe_payment_intent_id := "pi_a" }
  , { campaign := 7, amount := 50, is_anonymous := true, stripe_payment_intent_id := "pi_b" }
  , { campaign := 8, amount := 9, is_anonymous := true, stripe_payment_intent_id := "pi_c" } ]

/-! Helper lemmas about `findRef` and `refCount`. -/

theorem refCount_eq_zero_of_findRef_eq_none {L : List Donation} {r : String}
    (h : findRef L r = none) : refCount L r = 0 := by
  induction L with
  | nil => rfl
  | cons x L ih =>
    by_cases hx : x.stripe_payment_intent_id = r
    · simp [findRef, hx] at h
    · simp only [findRef, hx, ite_false] at h
      simp [refCount, hx, ih h]

theorem findRef_ref {L : List Donation} {r : String} {d : Donation}
    (h : findRef L r = some d) : d.stripe_payment_intent_id = r := by
  induction L with
  | nil => simp [findRef] at h
  | cons x L ih =>
    by_cases hx : x.stripe_payment_intent_id = r
    · simp only [findRef, hx, ite_true, Option.some.injEq] at h
      rw [← h]; exact hx
    · simp only [findRef, hx, ite_false] at h
      exact ih h

theorem one_le_refCount_of_findRef_eq_some {L : List Donation} {r : String} {d : Donation}
    (h : findRef L r = some d) : 1 ≤ refCount L r := by
  induction L with
  | nil => simp [findRef] at h
  | cons x L ih =>
    by_cases hx : x.stripe_payment_intent_id = r
    · simp [refCount, hx]
    · simp only [findRef, hx, ite_false] at h
      simp only [refCount, hx, ite_false, Nat.zero_add]
      exact ih h

theorem findRef_append_of_none {L : List Donation} {r : String}
    (h : findRef L r = none) (L' : List Donation) :
    findRef (L ++ L') r = findRef L' r := by
  induction L with
  | nil => rfl
  | cons x L ih =>
    by_cases hx : x.stripe_payment_intent_id = r
    · simp [findRef, hx] at h
    · simp only [findRef, hx, ite_false] at h
      simp only [List.cons_append, findRef, hx, ite_false]
      exact ih h

theorem refCount_append (L L' : List Donation) (r : String) :
    refCount (L ++ L') r = refCount L r + refCount L' r := by
  induction L with
  | nil => simp [refCount]
  | cons x L ih =>
    show (if x.stripe_payment_intent_id = r then 1 else 0) + refCount (L ++ L') r
        = ((if x.stripe_payment_intent_id = r then 1 else 0) + refCount L r) + refCount L' r
    rw [ih, Nat.add_assoc]

theorem findRef_replace {L : List Donation} {r : String} {d : Donation}
    (h : findRef L r = some d) (d' : Donation) (hd' : d'.stripe_payment_intent_id = r) :
    findRef (L.map (fun x => if x.stripe_payment_intent_id = r then d' else x)) r
      = some d' := by
  induction L with
  | nil => simp [findRef] at h
  | cons x L ih =>
    by_cases hx : x.stripe_payment_intent_id = r
    · simp [findRef, List.map_cons, hx, hd']
    · simp only [findRef, hx, ite_false] at h
      simp only [List.map_cons, hx, ite_false, findRef]
      exact ih h

theorem refCount_replace (L : List Donation) {r : String}
    (d' : Donation) (hd' : d'.stripe_payment_intent_id = r) :
    refCount (L.map (fun x => if x.stripe_payment_intent_id = r then d' else x)) r
      = refCount L r := by
  induction L with
  | nil => rfl
  | cons x L ih =>
    by_cases hx : x.stripe_payment_intent_id = r
    · simp only [List.map_cons, hx, ite_true, refCount, hd', ih]
    · simp only [List.map_cons, hx, ite_false, refCount, ih]

theorem foldl_add_amount (L : List Donation) (x : ℚ) :
    L.foldl (fun acc d => acc + d.amount) x = x + (L.map Donation.amount).sum := by
  induction L generalizing x with
  | nil => simp
  | cons d L ih =>
    simp only [List.foldl_cons, List.map_cons, List.sum_cons, ih]
    ring

/-- Claim C1: `create_or_update_donation` is idempotent.  Starting from any donation
table obeying the unique constraint (at most one row per payment reference), recording
the same campaign, reference and amount twice leaves exactly one row carrying that
reference; the second call returns `created = false`, and since the amount matches it
performs no write at all (`updated = false` and the table is unchanged). -/
theorem recordDonation_idempotent (c : Campaign) (r : String) (a : ℚ)
    (L : List Donation) (h : refCount L r ≤ 1) :
    refCount (create_or_update_donation c r a
        (create_or_update_donation c r a L).ledger).ledger r = 1
    ∧ (create_or_update_donation c r a
        (create_or_update_donation c r a L).ledger).created = false
    ∧ (create_or_update_donation c r a
        (create_or_update_donation c r a L).ledger).updated = false
    ∧ (create_or_update_donation c r a
        (create_or_update_donation c r a L).ledger).ledger
      = (create_or_update_donation c r a L).ledger := by
  cases hfind : findRef L r with
  | none =>
    have hzero : refCount L r = 0 := refCount_eq_zero_of_findRef_eq_none hfind
    have h1 : create_or_update_donation c r a L
        = { donation := ⟨c.id, a, true, r⟩, created := true, updated := false,
            ledger := L ++ [⟨c.id, a, true, r⟩] } := by
      simp [create_or_update_donation, hfind]
    have hfind2 : findRef (L ++ [(⟨c.id, a, true, r⟩ : Donation)]) r
        = some ⟨c.id, a, true, r⟩ := by
      rw [findRef_append_of_none hfind]
      simp [findRef]
    have h2 : create_or_update_donation c r a (L ++ [(⟨c.id, a, true, r⟩ : Donation)])
        = { donation := ⟨c.id, a, true, r⟩, created := false, updated := false,
            ledger := L ++ [⟨c.id, a, true, r⟩] } := by
      simp [create_or_update_donation, hfind2]
    rw [h1]
    dsimp only
    rw [h2]
    dsimp only
    refine ⟨?_, rfl, rfl, rfl⟩
    rw [refCount_append, hzero]
    simp [refCount]
  | some d0 =>
    have hd0 : d0.stripe_payment_intent_id = r := findRef_ref hfind
    have hone : refCount L r = 1 :=
      le_antisymm h (one_le_refCount_of_findRef_eq_some hfind)
    by_cases hamt : d0.amount = a
    · have h1 : create_or_update_donation c r a L
          = { donation := d0, created := false, updated := false, ledger := L } := by
        simp [create_or_update_donation, hfind, hamt]
      rw [h1]
      dsimp only
      rw [h1]
      dsimp only
      exact ⟨hone, rfl, rfl, rfl⟩
    · have h1 : create_or_update_donation c r a L
          = { donation := { d0 with amount := a }, created := false, updated := true,
              ledger := L.map (fun x =>
                if x.stripe_payment_intent_id = r then { d0 with amount := a } else x) } := by
        simp [create_or_update_donation, hfind, hamt]
      have hfind2 : findRef (L.map (fun x =>
            if x.stripe_payment_intent_id = r then { d0 with amount := a } else x)) r
          = some { d0 with amount := a } :=
        findRef_replace hfind _ hd0
      have h2 : create_or_update_donation c r a (L.map (fun x =>
            if x.stripe_payment_intent_id = r then { d0 with amount := a } else x))
          = { donation := { d0 with amount := a }, created := false, updated := false,
              ledger := L.map (fun x =>
                if x.stripe_payment_intent_id = r then { d0 with amount := a } else x) } := by
        simp [create_or_update_donation, hfind2]
      rw [h1]
      dsimp only
      rw [h2]
      dsimp only
      refine ⟨?_, rfl, rfl, rfl⟩
      rw [refCount_replace L ({ d0 with amount := a }) hd0, hone]

/-- Claim C3: amount correction.  For a fresh payment reference, recording amount `a1`
and then amount `a2 ≠ a1` leaves a single donation row for the reference whose amount
is `a2`; the second call reports `created = false` and `updated = true`. -/
theorem recordDonation_amount_correction (c : Campaign) (r : String) (a1 a2 : ℚ)
    (L : List Donation) (h0 : findRef L r = none) (hne : a1 ≠ a2) :
    (create_or_update_donation c r a2
        (create_or_update_donation c r a1 L).ledger).created = false
    ∧ (create_or_update_donation c r a2
        (create_or_update_donation c r a1 L).ledger).updated = true
    ∧ refCount (create_or_update_donation c r a2
        (create_or_update_donation c r a1 L).ledger).ledger r = 1
    ∧ (findRef (create_or_update_donation c r a2
        (create_or_update_donation c r a1 L).ledger).ledger r).map Donation.amount
      = some a2 := by
  have hzero : refCount L r = 0 := refCount_eq_zero_of_findRef_eq_none h0
  have h1 : create_or_update_donation c r a1 L
      = { donation := ⟨c.id, a1, true, r⟩, created := true, updated := false,
          ledger := L ++ [⟨c.id, a1, true, r⟩] } := by
    simp [create_or_update_donation, h0]
  have hfind1 : findRef (L ++ [(⟨c.id, a1, true, r⟩ : Donation)]) r
      = some ⟨c.id, a1, true, r⟩ := by
    rw [findRef_append_of_none h0]
    simp [findRef]
  have h2 : create_or_update_donation c r a2 (L ++ [(⟨c.id, a1, true, r⟩ : Donation)])
      = { donation := ⟨c.id, a2, true, r⟩, created := false, updated := true,
          ledger := (L ++ [(⟨c.id, a1, true, r⟩ : Donation)]).map (fun x =>
            if x.stripe_payment_intent_id = r then ⟨c.id, a2, true, r⟩ else x) } := by
    simp [create_or_update_donation, hfind1, hne]
  rw [h1]
  dsimp only
  rw [h2]
  dsimp only
  have hfr : findRef ((L ++ [(⟨c.id, a1, true, r⟩ : Donation)]).map (fun x =>
      if x.stripe_payment_intent_id = r then ⟨c.id, a2, true, r⟩ else x)) r
      = some ⟨c.id, a2, true, r⟩ :=
    findRef_replace hfind1 _ rfl
  refine ⟨rfl, rfl, ?_, ?_⟩
  · rw [refCount_replace (L ++ [(⟨c.id, a1, true, r⟩ : Donation)]) (⟨c.id, a2, true, r⟩ : Donation)
        (show (⟨c.id, a2, true, r⟩ : Donation).stripe_payment_intent_id = r from rfl),
      refCount_append, hzero]
    simp [refCount]
  · rw [hfr]
    rfl

/-- Claim C10: when the payment reference already exists in the ledger, the supplied
campaign argument is ignored: the existing row keeps its campaign reference and its
`is_anonymous` flag, at most its amount is overwritten with the supplied value, no row
is added, and the call reports `created = false`. -/
theorem recordDonation_existing_ignores_campaign (c2 : Campaign) (r : String) (a : ℚ)
    (L : List Donation) (d0 : Donation) (h : findRef L r = some d0) :
    (create_or_update_donation c2 r a L).created = false
    ∧ findRef (create_or_update_donation c2 r a L).ledger r = some { d0 with amount := a }
    ∧ (findRef (create_or_update_donation c2 r a L).ledger r).map Donation.campaign
        = some d0.campaign
    ∧ (findRef (create_or_update_donation c2 r a L).ledger r).map Donation.is_anonymous
        = some d0.is_anonymous
    ∧ (create_or_update_donation c2 r a L).ledger.length = L.length := by
  have hd0 : d0.stripe_payment_intent_id = r := findRef_ref h
  by_cases hamt : d0.amount = a
  · have h1 : create_or_update_donation c2 r a L
        = { donation := d0, created := false, updated := false, ledger := L } := by
      simp [create_or_update_donation, h, hamt]
    have heta : ({ d0 with amount := a } : Donation) = d0 := by
      rw [← hamt]
    rw [h1]
    dsimp only
    rw [heta, h]
    exact ⟨rfl, rfl, rfl, rfl, rfl⟩
  · have h1 : create_or_update_donation c2 r a L
        = { donation := { d0 with amount := a }, created := false, updated := true,
            ledger := L.map (fun x =>
              if x.stripe_payment_intent_id = r then { d0 with amount := a } else x) } := by
      simp [create_or_update_donation, h, hamt]
    have hfr : findRef (L.map (fun x =>
        if x.stripe_payment_intent_id = r then { d0 with amount := a } else x)) r
        = some { d0 with amount := a } :=
      findRef_replace h _ hd0
    rw [h1]
    dsimp only
    rw [hfr]
    exact ⟨rfl, rfl, rfl, rfl, by simp⟩

/-- Claim C2: `recalculate_campaign_amount` leaves `current_amount` equal to the exact
sum of `Donation.amount` over the campaign's donations, reports a write exactly when
the stored value differed from that sum, and returns the campaign row untouched when
it reports no write. -/
theorem recalculate_exact_sum (c : Campaign) (L : List Donation) :
    (recalculate_campaign_amount c L).1.current_amount
        = ((L.filter (fun d => d.campaign == c.id)).map Donation.amount).sum
    ∧ ((recalculate_campaign_amount c L).2 = true
        ↔ c.current_amount
            ≠ ((L.filter (fun d => d.campaign == c.id)).map Donation.amount).sum)
    ∧ ((recalculate_campaign_amount c L).2 = false
        ↔ (recalculate_campaign_amount c L).1 = c) := by
  have hsum : (L.filter (fun d => d.campaign == c.id)).foldl (fun acc d => acc + d.amount) 0
      = ((L.filter (fun d => d.campaign == c.id)).map Donation.amount).sum := by
    rw [foldl_add_amount]
    ring
  by_cases hc : c.current_amount
      = ((L.filter (fun d => d.campaign == c.id)).map Donation.amount).sum
  · refine ⟨?_, ?_, ?_⟩ <;> simp [recalculate_campaign_amount, hsum, hc]
  · have hne : ({ c with current_amount :=
        ((L.filter (fun d => d.campaign == c.id)).map Donation.amount).sum } : Campaign) ≠ c := by
      intro heq
      exact hc (congrArg Campaign.current_amount heq).symm
    refine ⟨?_, ?_, ?_⟩ <;> simp [recalculate_campaign_amount, hsum, hc, hne]

/-- Claim C7: payment-reference extraction.  A truthy `payment_intent` key is used
unchanged; when neither payment-intent key is truthy, the extracted reference is the
deterministic string `session_<sessionId>`, the session id being the explicit
`session_id` argument when truthy and the session object's `id` key otherwise. -/
theorem payment_reference_extraction (session : Session) (sid : Option String)
    (s p : String) :
    ((session.payment_intent = some p ∧ p ≠ "") →
      extract_payment_intent_from_session session sid = p)
    ∧ ((truthyStr session.payment_intent = false ∧ truthyStr session.payment_intent_id = false
          ∧ sid = some s ∧ s ≠ "") →
        extract_payment_intent_from_session session sid = "session_" ++ s)
    ∧ ((truthyStr session.payment_intent = false ∧ truthyStr session.payment_intent_id = false
          ∧ sid = none ∧ session.id = some s) →
        extract_payment_intent_from_session session sid = "session_" ++ s) := by
  refine ⟨?_, ?_, ?_⟩
  · rintro ⟨h1, h2⟩
    simp [extract_payment_intent_from_session, truthyStr, h1, h2]
  · rintro ⟨h1, h2, h3, h4⟩
    subst h3
    simp only [extract_payment_intent_from_session]
    rw [h1, h2]
    simp [truthyStr, h4]
  · rintro ⟨h1, h2, h3, h4⟩
    subst h3
    simp only [extract_payment_intent_from_session]
    rw [h1, h2]
    simp [truthyStr, h4]

/-- Claim C8: resuming a suspended campaign whose owner's payment account is not ready
is rejected with the NotReady error, and the rejected attempt leaves the campaign row
(every field) and the ModerationHistory table exactly as they were. -/
theorem resume_blocked_when_not_ready (u : User) (c : Campaign)
    (h : List ModerationHistory) (notes : Option String)
    (hmod : u.is_moderator = true ∨ u.is_staff = true)
    (hst : c.status = Status.suspended) (hr : c.stripe_ready = false) :
    resume u c h notes = (ResumeOutcome.notReady, c, h) := by
  have hb : (u.is_moderator || u.is_staff) = true := by
    rcases hmod with h1 | h1 <;> simp [h1]
  simp [resume, hb, hst, hr]

/-- Claim C9: any successful update of an approved or rejected campaign resets its
status to pending, clears `moderation_notes`, and leaves the previously created
ModerationHistory rows unchanged. -/
theorem update_resets_moderation (u : User) (c : Campaign) (patch : CampaignPatch)
    (h : List ModerationHistory)
    (hst : c.status = Status.approved ∨ c.status = Status.rejected)
    (hok : (perform_update u c patch h).1 = UpdateOutcome.saved) :
    (perform_update u c patch h).2.1.status = Status.pending
    ∧ (perform_update u c patch h).2.1.moderation_notes = ""
    ∧ (perform_update u c patch h).2.2 = h := by
  unfold perform_update at hok ⊢
  by_cases hperm : c.created_by ≠ u.id ∧ ¬(u.is_moderator = true ∨ u.is_staff = true)
  · rw [if_pos hperm] at hok
    exact absurd hok (by simp)
  · rw [if_neg hperm] at hok ⊢
    by_cases hgate : ((patch.status.getD c.status) = Status.pending
        ∨ (patch.status.getD c.status) = Status.approved) ∧ c.stripe_ready = false
    · rw [if_pos hgate] at hok
      exact absurd hok (by simp)
    · rw [if_neg hgate] at hok ⊢
      rw [if_pos hst] at hok ⊢
      exact ⟨rfl, rfl, rfl⟩

/-- Claim C5 (code bug): the readiness gate is bypassed by two reachable operations.
The moderation-dashboard approve path never reads `stripe_ready`, so it moves a
pending campaign whose owner's account is not ready straight to `approved` (writing a
ModerationHistory row), and the API update path moves a rejected not-ready campaign to
`pending` through the moderation-reset branch; the specification requires both
attempts to fail with NotReady. -/
theorem readiness_gate_bypassed :
    pendingNotReady.stripe_ready = false
    ∧ (moderate_campaign sampleModerator pendingNotReady [] "approve" "ok").1
        = ModerateOutcome.approvedOk
    ∧ (moderate_campaign sampleModerator pendingNotReady [] "approve" "ok").2.1.status
        = Status.approved
    ∧ (moderate_campaign sampleModerator pendingNotReady [] "approve" "ok").2.2.length = 1
    ∧ rejectedNotReady.stripe_ready = false
    ∧ (perform_update sampleOwner rejectedNotReady sampleEdit []).1 = UpdateOutcome.saved
    ∧ (perform_update sampleOwner rejectedNotReady sampleEdit []).2.1.status
        = Status.pending := by
  exact ⟨rfl, rfl, rfl, rfl, rfl, rfl, rfl⟩

/-- Claim C6 (code bug): a `checkout.session.completed` event whose session metadata
has no campaign identifier is answered with HTTP 500, not a 400-level rejection:
`int(None)` raises `TypeError`, which only the catch-all exception handler sees.  No
campaign or donation state is modified. -/
theorem webhook_missing_campaign_id_returns_500 :
    stripe_webhook_checkout_completed eventMissingCampaignId sampleDb = (500, sampleDb) :=
  rfl

/-- Witness for claim C1 at a concrete input: fresh reference `pi_123`, amount 50,
empty donation table. -/
theorem recordDonation_idempotent_witness :
    refCount (create_or_update_donation sampleCampaign "pi_123" 50
        (create_or_update_donation sampleCampaign "pi_123" 50 []).ledger).ledger "pi_123"
      = 1 :=
  (recordDonation_idempotent sampleCampaign "pi_123" 50 [] (by decide)).1

/-- Witness for claim C2 at a concrete input: the sample table holds donations of 30
and 50 for campaign 7 and one of 9 for campaign 8. -/
theorem recalculate_exact_sum_witness :
    (recalculate_campaign_amount sampleCampaign sampleLedger).1.current_amount = 80 := by
  have h := (recalculate_exact_sum sampleCampaign sampleLedger).1
  rw [h]
  simp [sampleLedger, sampleCampaign]
  norm_num

/-- Witness for claim C3 at a concrete input: amount 50 then corrected amount 60. -/
theorem recordDonation_amount_correction_witness :
    (findRef (create_or_update_donation sampleCampaign "pi_123" 60
        (create_or_update_donation sampleCampaign "pi_123" 50 []).ledger).ledger
      "pi_123").map Donation.amount = some 60 :=
  (recordDonation_amount_correction sampleCampaign "pi_123" 50 60 [] rfl
    (by norm_num)).2.2.2

/-- Witness for claim C7 at concrete inputs: the fallback for session `cs_abc` without
a payment intent, and the pass-through of an explicit payment intent. -/
theorem payment_reference_extraction_witness :
    extract_payment_intent_from_session ⟨none, none, some "cs_abc"⟩ none
        = "session_cs_abc"
    ∧ extract_payment_intent_from_session ⟨some "pi_9", none, some "cs_abc"⟩ none
        = "pi_9" :=
  ⟨(payment_reference_extraction ⟨none, none, some "cs_abc"⟩ none "cs_abc" "pi_9").2.2
      ⟨rfl, rfl, rfl, rfl⟩,
    (payment_reference_extraction ⟨some "pi_9", none, some "cs_abc"⟩ none "cs_abc"
        "pi_9").1 ⟨rfl, by decide⟩⟩

/-- Witness for claim C8 at a concrete input: a suspended, not-ready campaign. -/
theorem resume_blocked_when_not_ready_witness :
    resume sampleModerator suspendedNotReady [] (some "resume please")
      = (ResumeOutcome.notReady, suspendedNotReady, []) :=
  resume_blocked_when_not_ready sampleModerator suspendedNotReady [] (some "resume please")
    (Or.inl rfl) rfl rfl

/-- Witness for claim C9 at a concrete input: the owner edits the description of an
approved, ready campaign. -/
theorem update_resets_moderation_witness :
    (perform_update sampleOwner sampleCampaign sampleEdit []).2.1.status = Status.pending
    ∧ (perform_update sampleOwner sampleCampaign sampleEdit []).2.1.moderation_notes = ""
    ∧ (perform_update sampleOwner sampleCampaign sampleEdit []).2.2 = [] :=
  update_resets_moderation sampleOwner sampleCampaign sampleEdit [] (Or.inl rfl) rfl

/-- Witness for claim C10 at a concrete input: reference `pi_9` already belongs to
campaign 3; recording it against campaign 7 leaves it on campaign 3. -/
theorem recordDonation_existing_ignores_campaign_witness :
    (findRef (create_or_update_donation sampleCampaign "pi_9" 60 [sampleDonation]).ledger
        "pi_9").map Donation.campaign = some sampleDonation.campaign :=
  (recordDonation_existing_ignores_campaign sampleCampaign "pi_9" 60 [sampleDonation]
      sampleDonation rfl).2.2.1

end Lendahand
